import Mathlib

/-
Verification of src/pipy/pip/_vendor/packaging/version.py: the PEP 440 style
version parser and comparator plus its legacy fallback scheme.

The embedding models Python runtime values that appear in comparison keys as
the inductive type PyVal, and Python rich comparisons as functions returning
Option Bool, where Option.none stands for a raised TypeError (Python 3 raises
TypeError when ordering incompatible types such as None and str).

The module _structures.py (the Infinity and NegativeInfinity sentinel
singletons imported at the top of version.py) is not part of the sources;
its comparison behaviour is modelled from the spec, see pyLt and pyGt below.
-/

/-- A Python runtime value as it can occur inside a version comparison key:
None, an int, a str, one of the two infinity sentinels, or a tuple. -/
inductive PyVal : Type where
  | vnone : PyVal
  | vint : Int → PyVal
  | vstr : String → PyVal
  | vinf : PyVal
  | vninf : PyVal
  | vtup : List PyVal → PyVal
deriving Repr

/-- Lexicographic comparison of strings by code points, as Python compares
str values. -/
def charListLt : List Char → List Char → Bool
  | [], [] => false
  | [], _ :: _ => true
  | _ :: _, [] => false
  | a :: xs, b :: ys => if a = b then charListLt xs ys else decide (a.toNat < b.toNat)

/-- Python string less-than. -/
def strLt (a b : String) : Bool := charListLt a.toList b.toList

/-- Python truthiness for the values that occur in this code base: None and
empty containers are falsy, everything else (including any 2-tuple) truthy. -/
def pyTruthy : PyVal → Bool
  | .vnone => false
  | .vint n => decide (n ≠ 0)
  | .vstr s => decide (s ≠ "")
  | .vinf => true
  | .vninf => true
  | .vtup xs => !xs.isEmpty

mutual

/-- Python equality on key values. Mixed types compare unequal without an
error; tuples compare elementwise; the sentinels equal only themselves. -/
def pyEq : PyVal → PyVal → Bool
  | .vnone, .vnone => true
  | .vinf, .vinf => true
  | .vninf, .vninf => true
  | .vint a, .vint b => decide (a = b)
  | .vstr a, .vstr b => decide (a = b)
  | .vtup xs, .vtup ys => pyEqList xs ys
  | _, _ => false

/-- Elementwise Python equality of tuples (unequal lengths are unequal). -/
def pyEqList : List PyVal → List PyVal → Bool
  | [], [] => true
  | x :: xs, y :: ys => pyEq x y && pyEqList xs ys
  | _, _ => false

end

mutual

/-- Python less-than on key values. Option.none is a raised TypeError.
Modelled from the spec: the Infinity and NegativeInfinity sentinels of the
missing module _structures.py are maximal and minimal elements comparable
against every value (section 4.2 of the spec calls them effectively
plus and minus infinity markers). Every other mixed-type comparison,
in particular None against str, raises TypeError in Python 3. -/
def pyLt : PyVal → PyVal → Option Bool
  | .vinf, .vinf => some false
  | .vninf, .vninf => some false
  | .vinf, _ => some false
  | _, .vinf => some true
  | .vninf, _ => some true
  | _, .vninf => some false
  | .vint a, .vint b => some (decide (a < b))
  | .vstr a, .vstr b => some (strLt a b)
  | .vtup xs, .vtup ys => pyLtList xs ys
  | _, _ => Option.none

/-- CPython tuple less-than: find the first index where elements differ
under equality and compare there; a strict prefix is smaller. -/
def pyLtList : List PyVal → List PyVal → Option Bool
  | [], [] => some false
  | [], _ :: _ => some true
  | _ :: _, [] => some false
  | x :: xs, y :: ys => if pyEq x y then pyLtList xs ys else pyLt x y

end

mutual

/-- Python greater-than on key values, mirroring pyLt (reflected operators
give the symmetric behaviour for the sentinels). -/
def pyGt : PyVal → PyVal → Option Bool
  | .vinf, .vinf => some false
  | .vninf, .vninf => some false
  | .vinf, _ => some true
  | _, .vinf => some false
  | .vninf, _ => some false
  | _, .vninf => some true
  | .vint a, .vint b => some (decide (b < a))
  | .vstr a, .vstr b => some (strLt b a)
  | .vtup xs, .vtup ys => pyGtList xs ys
  | _, _ => Option.none

/-- CPython tuple greater-than. -/
def pyGtList : List PyVal → List PyVal → Option Bool
  | [], [] => some false
  | [], _ :: _ => some false
  | _ :: _, [] => some true
  | x :: xs, y :: ys => if pyEq x y then pyGtList xs ys else pyGt x y

end

example : pyEq (.vint 1) (.vint 1) = true := rfl
example : pyLt (.vint 1) (.vstr "a") = Option.none := rfl
example (n : Int) : pyEq (.vint n) .vnone = false := rfl
example (n : Int) : pyGt (.vint n) .vninf = some true := rfl
example (xs : List PyVal) : pyLt .vninf (.vtup xs) = some true := rfl
example : pyLt (.vtup [.vint 1, .vstr "a"]) (.vtup [.vint 1, .vstr "b"]) = some true := rfl

/- ------------------------------------------------------------------
Shared small helpers (ASCII versions of the Python string primitives).
------------------------------------------------------------------ -/

/-- ASCII lower-casing of a string, as str.lower applies to the ASCII
version identifiers handled here. -/
def lowerStr (s : String) : String := String.mk (s.toList.map Char.toLower)

/-- Parse a run of decimal digits as a natural number, as int() does on a
digit string. -/
def natOfDigits (s : String) : Nat :=
  s.toList.foldl (fun a c => a * 10 + (c.toNat - 48)) 0

/-- Python str.isdigit for ASCII: nonempty and all characters digits. -/
def isDigitString (s : String) : Bool :=
  !s.toList.isEmpty && s.toList.all Char.isDigit

/-- Split a character list at every separator characater accepted by the
given predicate, keeping empty chunks, as re.split does. -/
def splitOnPred (p : Char → Bool) : List Char → List (List Char)
  | [] => [[]]
  | c :: rest =>
    if p c then [] :: splitOnPred p rest
    else
      match splitOnPred p rest with
      | g :: gs => (c :: g) :: gs
      | [] => [[c]]

/-- Join strings with a separator, as sep.join does. -/
def joinSep (sep : String) : List String → String
  | [] => ""
  | [x] => x
  | x :: y :: xs => x ++ sep ++ joinSep sep (y :: xs)

/-- Concatenate a list of lists. -/
def catLists : List (List α) → List α
  | [] => []
  | l :: ls => l ++ catLists ls

/-- Python truthiness of an optional string: None and the empty string are
falsy. -/
def truthyOptStr : Option String → Bool
  | Option.none => false
  | some s => !(s == "")

/-- Python `a or b` on two optional strings: the first operand when truthy,
otherwise the second. -/
def pyOrStr (a b : Option String) : Option String :=
  if truthyOptStr a then a else b

/- ------------------------------------------------------------------
Legacy tokenizer and key builder
(_legacy_version_component_re, _replace_legacy_component,
_parse_version_parts, _legacy_cmpkey).
------------------------------------------------------------------ -/

/-- Is this char a lowercase ASCII letter (the input is lower-cased before
tokenizing, so the [a-z]+ branch of the component regex sees only these). -/
def isLowerAlpha (c : Char) : Bool := 'a' ≤ c && c ≤ 'z'

/-- A char that starts no token of the component regex
(\d+ | [a-z]+ | \. | -): it ends up in the text between matches that
re.split also returns. -/
def isPlainChar (c : Char) : Bool :=
  !(c.isDigit || isLowerAlpha c || c == '.' || c == '-')

/-- Tokenize as re.split over (\d+ | [a-z]+ | \. | -) does: maximal digit
runs, maximal letter runs, single dots and dashes, and the unmatched text
between them. Empty chunks between adjacent matches are dropped here; the
caller drops them anyway (the `if not part` guard). The fuel argument is
the length of the input, consumed at least one character per step. -/
def legacySplitF : Nat → List Char → List String
  | 0, _ => []
  | _, [] => []
  | fuel + 1, c :: rest =>
    if c.isDigit then
      String.mk (c :: rest.takeWhile Char.isDigit) ::
        legacySplitF fuel (rest.dropWhile Char.isDigit)
    else if isLowerAlpha c then
      String.mk (c :: rest.takeWhile isLowerAlpha) ::
        legacySplitF fuel (rest.dropWhile isLowerAlpha)
    else if c == '.' || c == '-' then
      String.mk [c] :: legacySplitF fuel rest
    else
      String.mk (c :: rest.takeWhile isPlainChar) ::
        legacySplitF fuel (rest.dropWhile isPlainChar)

/-- The token list of a (lower-cased) legacy version string. -/
def legacySplit (cs : List Char) : List String := legacySplitF cs.length cs

/-- _legacy_version_replacement_map lookup with identity default. -/
def replaceLegacyComponent (part : String) : String :=
  if part == "pre" then "c"
  else if part == "preview" then "c"
  else if part == "-" then "final-"
  else if part == "rc" then "c"
  else if part == "dev" then "@"
  else part

/-- Left-pad a digit run with zeros to width 8 (str.zfill(8) on a digit
string). -/
def zfill8 (s : String) : String :=
  if s.length ≥ 8 then s
  else String.mk (List.replicate (8 - s.length) '0') ++ s

/-- Does the part start with a decimal digit (part[:1] in "0123456789")? -/
def startsWithDigit (s : String) : Bool :=
  match s.toList with
  | [] => false
  | c :: _ => c.isDigit

/-- The body of the loop in _parse_version_parts: substitute the component,
skip empty parts and bare dots, zero-pad numeric parts for string
comparison and star-prefix the rest. -/
def processPart (part0 : String) : Option String :=
  let part := replaceLegacyComponent part0
  if part == "" || part == "." then Option.none
  else if startsWithDigit part then some (zfill8 part)
  else some ("*" ++ part)

/-- _parse_version_parts: tokenize, process each part, and append the final
*final marker. -/
def parseVersionParts (s : String) : List String :=
  ((legacySplit s.toList).filterMap processPart) ++ ["*final"]

/-- Remove a maximal run of elements equal to x from the end of the list
(the while parts and parts[-1] == x: parts.pop() idiom). -/
def dropTrailingEq (l : List String) (x : String) : List String :=
  (l.reverse.dropWhile (fun y => y == x)).reverse

/-- extract_parts of _legacy_cmpkey: before appending a part below *final,
pop trailing *final- markers; always pop trailing zero-padded numerics. -/
def extractParts (parts : List String) (part : String) : List String :=
  let parts := if strLt part "*final" then dropTrailingEq parts "*final-" else parts
  let parts := dropTrailingEq parts "00000000"
  parts ++ [part]

/-- The accumulated parts of a legacy comparison key. The source loop
branches on part.startswith("*") but runs extract_parts identically in both
branches, so it is a plain fold. -/
def legacyParts (s : String) : List String :=
  (parseVersionParts (lowerStr s)).foldl extractParts []

/-- _legacy_cmpkey: the pair of the constant epoch -1 and the tuple of
string parts, as a PyVal tuple. -/
def legacyCmpkey (s : String) : PyVal :=
  .vtup [.vint (-1), .vtup ((legacyParts s).map .vstr)]

example : legacyParts "1.0" = ["00000001", "*final"] := rfl
example : parseVersionParts "1.0" = ["00000001", "00000000", "*final"] := rfl

/- ------------------------------------------------------------------
A small backtracking regular-expression engine, used to embed
VERSION_PATTERN faithfully. Alternation tries the left branch first,
option and star are greedy, and reMatchesF enumerates every way a
pattern can consume a prefix of the input in exactly the priority
order in which the Python engine explores them; the anchored search
takes the first complete match of that enumeration.
------------------------------------------------------------------ -/

/-- Regular expression abstract syntax: empty, single character by
predicate, sequence, prioritized alternation, greedy option, greedy star,
and numbered capture group. -/
inductive Re : Type where
  | eps : Re
  | pchar : (Char → Bool) → Re
  | seq : Re → Re → Re
  | alt : Re → Re → Re
  | opt : Re → Re
  | star : Re → Re
  | group : Nat → Re → Re

/-- Structural size of a pattern, used only to bound recursion depth. -/
def reSize : Re → Nat
  | .eps => 1
  | .pchar _ => 1
  | .seq a b => reSize a + reSize b + 1
  | .alt a b => reSize a + reSize b + 1
  | .opt a => reSize a + 1
  | .star a => reSize a + 1
  | .group _ a => reSize a + 1

/-- Captured groups of one match path: group number to captured text. -/
abbrev Caps := List (Nat × String)

/-- Look a captured group up; absent groups are None (match.group(name)
of a group that did not participate in the match). -/
def capGet (cs : Caps) (i : Nat) : Option String :=
  match cs.find? (fun pr => pr.1 == i) with
  | Option.none => Option.none
  | some pr => some pr.2

/-- The text a subpattern consumed, given the input it saw and the rest it
left over (the rest is always a suffix of the input). -/
def consumedText (s rest : List Char) : String :=
  String.mk (s.take (s.length - rest.length))

/-- All ways the pattern can match a prefix of the input, each with its
leftover suffix and captured groups, in backtracking priority order:
left alternative before right, greedy option and star longest first.
A star iteration must consume input, as every starred subpattern of
VERSION_PATTERN does; the fuel bounds the recursion depth and is chosen
large enough in reSearchFull that it never runs out. -/
def reMatchesF : Nat → Re → List Char → List (List Char × Caps)
  | 0, _, _ => []
  | fuel + 1, r, s =>
    match r with
    | .eps => [(s, [])]
    | .pchar p =>
      match s with
      | [] => []
      | c :: rest => if p c then [(rest, [])] else []
    | .alt a b => reMatchesF fuel a s ++ reMatchesF fuel b s
    | .opt a => reMatchesF fuel a s ++ [(s, [])]
    | .seq a b =>
      catLists ((reMatchesF fuel a s).map (fun pr =>
        (reMatchesF fuel b pr.1).map (fun qr => (qr.1, pr.2 ++ qr.2))))
    | .star a =>
      catLists ((reMatchesF fuel a s).map (fun pr =>
        if pr.1.length < s.length then
          (reMatchesF fuel (.star a) pr.1).map (fun qr => (qr.1, pr.2 ++ qr.2))
        else [])) ++ [(s, [])]
    | .group i a =>
      (reMatchesF fuel a s).map (fun pr => (pr.1, pr.2 ++ [(i, consumedText s pr.1)]))

/-- Anchored search: the first complete match, in priority order, of the
pattern against the whole input, as re.search with a pattern wrapped
between a leading and a trailing anchor. -/
def reSearchFull (r : Re) (s : String) : Option Caps :=
  let cs := s.toList
  match ((reMatchesF ((cs.length + 1) * (reSize r + 1)) r cs).filter
      (fun pr => pr.1.isEmpty)) with
  | [] => Option.none
  | pr :: _ => some pr.2

/- ------------------------------------------------------------------
VERSION_PATTERN as a Re term. The pattern is compiled with re.VERBOSE
and re.IGNORECASE and wrapped as  ^\s* PATTERN \s*$ , so letters match
case-insensitively and the [a-z0-9] class also accepts uppercase.
------------------------------------------------------------------ -/

/-- Sequence a list of patterns. -/
def seqs (rs : List Re) : Re := rs.foldr Re.seq .eps

/-- Case-insensitive literal (the pattern literals are lowercase). -/
def litCI (s : String) : Re :=
  seqs (s.toList.map (fun c => Re.pchar (fun d => d.toLower == c)))

/-- Prioritized alternation over a list, first alternative first. -/
def altList : List Re → Re
  | [] => .pchar (fun _ => false)
  | [r] => r
  | r :: s :: rs => .alt r (altList (s :: rs))

/-- The class [-_\.]. -/
def isSepChar (c : Char) : Bool := c == '-' || c == '_' || c == '.'

/-- \s for the ASCII whitespace characters Python matches. -/
def isSpaceChar (c : Char) : Bool :=
  c == ' ' || c == '\t' || c == '\n' || c == '\r' || c == '\x0b' || c == '\x0c'

/-- [0-9]+ -/
def digitsRe : Re := .seq (.pchar Char.isDigit) (.star (.pchar Char.isDigit))

/-- [a-z0-9]+ under IGNORECASE: ASCII letters of either case and digits. -/
def alnumsRe : Re := .seq (.pchar Char.isAlphanum) (.star (.pchar Char.isAlphanum))

/-- [-_\.]? -/
def sepOpt : Re := .opt (.pchar isSepChar)

/-- Group numbers standing for the named groups of VERSION_PATTERN. -/
def gEpoch : Nat := 1
def gRelease : Nat := 2
def gPreL : Nat := 4
def gPreN : Nat := 5
def gPostN1 : Nat := 7
def gPostL : Nat := 8
def gPostN2 : Nat := 9
def gDevL : Nat := 11
def gDevN : Nat := 12
def gLocal : Nat := 13

/-- VERSION_PATTERN between the anchors of Version._regex:
\s* v? (epoch? release pre? post? dev?) local? \s* .
The unnamed group wrapped around the pre_l alternation in the source
captures the same text as pre_l and is left non-capturing here, and the
outer named groups pre, post and dev are never read by the constructor,
so they carry no group number. -/
def versionRe : Re :=
  seqs [
    .star (.pchar isSpaceChar),
    .opt (.pchar (fun c => c.toLower == 'v')),
    .opt (.seq (.group gEpoch digitsRe) (litCI "!")),
    .group gRelease (.seq digitsRe (.star (.seq (litCI ".") digitsRe))),
    .opt (seqs [sepOpt,
      .group gPreL (altList [litCI "a", litCI "b", litCI "c", litCI "rc",
        litCI "alpha", litCI "beta", litCI "pre", litCI "preview"]),
      sepOpt, .opt (.group gPreN digitsRe)]),
    .opt (.alt (.seq (litCI "-") (.group gPostN1 digitsRe))
      (seqs [sepOpt,
        .group gPostL (altList [litCI "post", litCI "rev", litCI "r"]),
        sepOpt, .opt (.group gPostN2 digitsRe)])),
    .opt (seqs [sepOpt, .group gDevL (litCI "dev"),
      sepOpt, .opt (.group gDevN digitsRe)]),
    .opt (.seq (litCI "+")
      (.group gLocal (.seq alnumsRe (.star (.seq (.pchar isSepChar) alnumsRe))))),
    .star (.pchar isSpaceChar)
  ]

example : (reSearchFull versionRe "1.0a1").isSome = true := rfl
example : capGet ((reSearchFull versionRe "1.0a1").getD []) gRelease = some "1.0" := rfl
example : capGet ((reSearchFull versionRe "1.0a1").getD []) gPreL = some "a" := rfl
example : capGet ((reSearchFull versionRe "1.0a1").getD []) gPreN = some "1" := rfl
example : reSearchFull versionRe "foo" = Option.none := rfl
example : capGet ((reSearchFull versionRe "1.0.post1").getD []) gPostN2 = some "1" := rfl
example : capGet ((reSearchFull versionRe "1.0+Abc.1").getD []) gLocal = some "Abc.1" := rfl

/- ------------------------------------------------------------------
Structured versions: _parse_letter_version, _parse_local_version,
_cmpkey, class Version, and the parse entry point.
------------------------------------------------------------------ -/

/-- normalize_letter_version inside _parse_letter_version. -/
def normalizeLetterVersion (letter0 : String) : String :=
  let letter := lowerStr letter0
  if letter == "alpha" then "a"
  else if letter == "beta" then "b"
  else if letter == "c" || letter == "pre" || letter == "preview" then "rc"
  else if letter == "rev" || letter == "r" then "post"
  else letter

/-- _parse_letter_version. It always returns a 2-tuple: the normalized
letter and number when a letter is present, ("post", n) for the bare
dash-number post form, and (None, 0) when the marker is absent. -/
def parseLetterVersion (letter number : Option String) : Option String × Int :=
  if truthyOptStr letter then
    let n : Int :=
      match number with
      | Option.none => 0
      | some ns => Int.ofNat (natOfDigits ns)
    (some (normalizeLetterVersion (letter.getD "")), n)
  else if truthyOptStr number then
    (some "post", Int.ofNat (natOfDigits (number.getD "")))
  else
    (Option.none, 0)

/-- A parsed local version segment: an integer for a digit run, otherwise
the lower-cased text. -/
inductive LocalPart : Type where
  | num : Nat → LocalPart
  | strp : String → LocalPart
deriving Repr

/-- _parse_local_version: split on dots, underscores and dashes, turning
digit segments into integers and the rest into lowercase strings. -/
def parseLocalVersion (l : Option String) : Option (List LocalPart) :=
  match l with
  | Option.none => Option.none
  | some s => some ((splitOnPred isSepChar s.toList).map (fun cs =>
      let part := String.mk cs
      if isDigitString part then LocalPart.num (natOfDigits part)
      else LocalPart.strp (lowerStr part)))

/-- The _Version namedtuple: the parsed-out pieces stored by
Version.__init__ (local is named localSegs as local is reserved). -/
structure PyVersion : Type where
  epoch : Nat
  release : List Nat
  pre : Option String × Int
  post : Option String × Int
  dev : Option String × Int
  localSegs : Option (List LocalPart)

/-- The PyVal form of a letter-number pair from _parse_letter_version. -/
def pairVal (p : Option String × Int) : PyVal :=
  match p.1 with
  | Option.none => .vtup [.vnone, .vint p.2]
  | some l => .vtup [.vstr l, .vint p.2]

/-- _cmpkey. The release component drops trailing zeros. For pre, post and
dev the source first tests `is None`, then membership of the value in
("-Infinity", "+Infinity"), then a "-" in the value; none of these can
fire, because _parse_letter_version always returns a 2-tuple, a tuple is
never None, never equals a string, and never contains the one-character
string "-" (its first element is None or a normalized letter tag and its
second an int), so only the final assignment pairing the tuple with
-Infinity runs, and the sentinel branches for pre and dev are dead code.
The local component is -Infinity when absent, otherwise integer segments
become (i, "") pairs and string segments (-Infinity, s) pairs. -/
def cmpkey (epoch : Nat) (release : List Nat) (pre post dev : Option String × Int)
    (localSegs : Option (List LocalPart)) : PyVal :=
  let release' := (release.reverse.dropWhile (fun x => x == 0)).reverse
  let preK := PyVal.vtup [pairVal pre, PyVal.vninf]
  let postK := PyVal.vtup [pairVal post, PyVal.vninf]
  let devK := PyVal.vtup [pairVal dev, PyVal.vninf]
  let localK :=
    match localSegs with
    | Option.none => PyVal.vninf
    | some parts => PyVal.vtup (parts.map (fun p =>
        match p with
        | LocalPart.num i => PyVal.vtup [PyVal.vint (Int.ofNat i), PyVal.vstr ""]
        | LocalPart.strp s2 => PyVal.vtup [PyVal.vninf, PyVal.vstr s2]))
  PyVal.vtup [PyVal.vint (Int.ofNat epoch),
    PyVal.vtup (release'.map (fun n => PyVal.vint (Int.ofNat n))),
    preK, postK, devK, localK]

/-- The pieces Version.__init__ stores, read off the match captures. -/
def PyVersion.ofCaps (caps : Caps) (rel : String) : PyVersion :=
  { epoch :=
      match capGet caps gEpoch with
      | some e => natOfDigits e
      | Option.none => 0
    release := ((splitOnPred (fun c => c == '.') rel.toList).map
      (fun cs => natOfDigits (String.mk cs)))
    pre := parseLetterVersion (capGet caps gPreL) (capGet caps gPreN)
    post := parseLetterVersion (capGet caps gPostL)
      (pyOrStr (capGet caps gPostN1) (capGet caps gPostN2))
    dev := parseLetterVersion (capGet caps gDevL) (capGet caps gDevN)
    localSegs := parseLocalVersion (capGet caps gLocal) }

/-- A structured Version value: the stored pieces and the comparison key
computed by __init__. -/
structure Version : Type where
  ver : PyVersion
  key : PyVal

/-- Building a Version from its parsed pieces (_key := _cmpkey(...)). -/
def Version.ofParts (pv : PyVersion) : Version :=
  ⟨pv, cmpkey pv.epoch pv.release pv.pre pv.post pv.dev pv.localSegs⟩

/-- Version.__init__: match the anchored pattern; a failed match raises
InvalidVersion, modelled as Option.none. -/
def Version.make? (s : String) : Option Version :=
  match reSearchFull versionRe s with
  | Option.none => Option.none
  | some caps =>
    match capGet caps gRelease with
    | Option.none => Option.none
    | some rel => some (Version.ofParts (PyVersion.ofCaps caps rel))

/-- str(x) of one element of the stored pre tuple: the letter or None. -/
def strOfPair (p : Option String × Int) : String :=
  match p.1 with
  | Option.none => "None" ++ toString p.2
  | some l => l ++ toString p.2

/-- str(x) of a stored local segment. -/
def localPartStr : LocalPart → String
  | .num n => toString n
  | .strp s => s

/-- Version.__str__. The source guards the pre, post and dev parts with
`is not None`, but the stored values are always 2-tuples and never None,
so all three parts are always emitted: an absent pre prints as None0 and
absent post and dev as .post0 and .dev0. -/
def Version.str (v : Version) : String :=
  (if v.ver.epoch ≠ 0 then toString v.ver.epoch ++ "!" else "")
  ++ joinSep "." (v.ver.release.map toString)
  ++ strOfPair v.ver.pre
  ++ ".post" ++ toString v.ver.post.2
  ++ ".dev" ++ toString v.ver.dev.2
  ++ (match v.ver.localSegs with
      | Option.none => ""
      | some ps => "+" ++ joinSep "." (ps.map localPartStr))

/-- str(self).split("+", 1)[0]: the text before the first plus. -/
def Version.pub (v : Version) : String :=
  String.mk ((Version.str v).toList.takeWhile (fun c => !(c == '+')))

/-- Version.base_version: the epoch marker when nonzero plus the dotted
release segment. -/
def Version.baseVersion (v : Version) : String :=
  (if v.ver.epoch ≠ 0 then toString v.ver.epoch ++ "!" else "")
  ++ joinSep "." (v.ver.release.map toString)

/-- Version.local: the text after the first plus of str(self), None when
there is no plus. -/
def Version.localAcc (v : Version) : Option String :=
  let cs := (Version.str v).toList
  if cs.contains '+' then some (String.mk ((cs.dropWhile (fun c => !(c == '+'))).drop 1))
  else Option.none

/-- Version.is_prerelease: bool(self._version.dev or self._version.pre). -/
def Version.isPrerelease (v : Version) : Bool :=
  pyTruthy (pairVal v.ver.dev) || pyTruthy (pairVal v.ver.pre)

/-- Version.is_postrelease: bool(self._version.post). -/
def Version.isPostrelease (v : Version) : Bool :=
  pyTruthy (pairVal v.ver.post)

/-- A LegacyVersion value: the raw string and its legacy comparison key. -/
structure LegacyVersion : Type where
  version : String
  key : PyVal

/-- LegacyVersion.__init__. -/
def LegacyVersion.make (s : String) : LegacyVersion := ⟨s, legacyCmpkey s⟩

/-- The value parse returns: a structured Version or a LegacyVersion. -/
inductive VersionValue : Type where
  | version : Version → VersionValue
  | legacy : LegacyVersion → VersionValue

/-- parse: try the Version constructor and fall back to LegacyVersion on
InvalidVersion. -/
def parse (s : String) : VersionValue :=
  match Version.make? s with
  | some v => .version v
  | Option.none => .legacy (LegacyVersion.make s)

/-- The _key either kind of value carries. -/
def VersionValue.key : VersionValue → PyVal
  | .version v => v.key
  | .legacy l => l.key

def VersionValue.isVersion : VersionValue → Bool
  | .version _ => true
  | .legacy _ => false

def VersionValue.isLegacy : VersionValue → Bool
  | .version _ => false
  | .legacy _ => true

/-- __lt__ via _BaseVersion._compare: compare the keys. -/
def vlt (a b : VersionValue) : Option Bool := pyLt a.key b.key

/-- __gt__ via _BaseVersion._compare. -/
def vgt (a b : VersionValue) : Option Bool := pyGt a.key b.key

/-- __eq__ via _BaseVersion._compare (tuple equality never raises). -/
def veq (a b : VersionValue) : Bool := pyEq a.key b.key

/-- __str__ of either kind of value. -/
def VersionValue.strOf : VersionValue → String
  | .version v => v.str
  | .legacy l => l.version

/-- public of either kind (LegacyVersion.public is the raw string). -/
def VersionValue.publicAcc : VersionValue → String
  | .version v => v.pub
  | .legacy l => l.version

/-- base_version of either kind. -/
def VersionValue.baseVersionAcc : VersionValue → String
  | .version v => v.baseVersion
  | .legacy l => l.version

/-- local of either kind (always None on a LegacyVersion). -/
def VersionValue.localOf : VersionValue → Option String
  | .version v => v.localAcc
  | .legacy _ => Option.none

/-- is_prerelease of either kind (always False on a LegacyVersion). -/
def VersionValue.isPrereleaseAcc : VersionValue → Bool
  | .version v => v.isPrerelease
  | .legacy _ => false

/-- is_postrelease of either kind (always False on a LegacyVersion). -/
def VersionValue.isPostreleaseAcc : VersionValue → Bool
  | .version v => v.isPostrelease
  | .legacy _ => false

example : (parse "1.0").isVersion = true := rfl
example : (parse "foo").isLegacy = true := rfl
example : (parse "1.0").strOf = "1.0None0.post0.dev0" := rfl
example : vlt (parse "1.0a1") (parse "1.0a2") = some true := rfl
example : vlt (parse "1.0rc1") (parse "1.0") = Option.none := rfl
example : veq (parse "1.0") (parse "1.0.0") = true := rfl
example : vlt (parse "1.0") (parse "1.0+abc") = some true := rfl
example : vgt (parse "1.0+1") (parse "1.0+abc") = some true := rfl

/- ------------------------------------------------------------------
Helper definitions and lemmas shared by the claim theorems.
------------------------------------------------------------------ -/

/-- The release component of the comparison key of a structured value
(the second element of the key tuple). -/
def VersionValue.releaseComponent : VersionValue → Option PyVal
  | .version v =>
    match v.key with
    | .vtup (_ :: r :: _) => some r
    | _ => Option.none
  | .legacy _ => Option.none

instance : BEq PyVal := ⟨pyEq⟩

/-- The PyVal form of a letter-number pair is a nonempty tuple, hence
truthy, whether or not the letter is present. -/
theorem pyTruthy_pairVal (p : Option String × Int) : pyTruthy (pairVal p) = true := by
  unfold pairVal
  split <;> rfl

/-- is_prerelease is true of every constructed Version, because the stored
dev and pre pairs are truthy 2-tuples. -/
theorem version_isPrerelease_true (v : Version) : v.isPrerelease = true := by
  simp [Version.isPrerelease, pyTruthy_pairVal]

/-- is_postrelease is true of every constructed Version, because the stored
post pair is a truthy 2-tuple. -/
theorem version_isPostrelease_true (v : Version) : v.isPostrelease = true := by
  simp [Version.isPostrelease, pyTruthy_pairVal]

/-- Every key the Version constructor produces is a tuple whose first
element is the nonnegative epoch. -/
theorem version_key_shape (t : String) (v : Version) (h : Version.make? t = some v) :
    ∃ (n : Nat) (rest : List PyVal), v.key = PyVal.vtup (PyVal.vint (Int.ofNat n) :: rest) := by
  unfold Version.make? at h
  split at h
  · exact Option.noConfusion h
  · split at h
    · exact Option.noConfusion h
    · cases h
      exact ⟨_, _, rfl⟩

/-- A legacy key, whose first element is the constant epoch -1, compares
less than any tuple starting with a nonnegative integer. -/
theorem pyLt_legacy_structured (xs : List PyVal) (n : Nat) (rest : List PyVal) :
    pyLt (.vtup [.vint (-1), .vtup xs]) (.vtup (.vint (Int.ofNat n) :: rest)) = some true := by
  have h1 : pyEq (PyVal.vint (-1)) (PyVal.vint (Int.ofNat n)) = false := by
    show decide ((-1 : Int) = Int.ofNat n) = false
    simp
  have h2 : pyLt (PyVal.vint (-1)) (PyVal.vint (Int.ofNat n)) = some true := by
    show some (decide ((-1 : Int) < Int.ofNat n)) = some true
    simp
    omega
  show (if pyEq (PyVal.vint (-1)) (PyVal.vint (Int.ofNat n)) then
      pyLtList [PyVal.vtup xs] rest
    else pyLt (PyVal.vint (-1)) (PyVal.vint (Int.ofNat n))) = some true
  rw [h1]
  exact h2

/- ------------------------------------------------------------------
Claim theorems.
------------------------------------------------------------------ -/

/-- Claim C1: the claim states that the ordering operators on parsed values
form a total order, with exactly one of less-than, equal, greater-than
holding for every pair. The code violates this: for the parsed values of
"1.0" and "1.0a1" equality is false while both strict comparisons raise
TypeError (modelled as Option.none), because the absent pre marker is
stored as the tuple (None, 0) and None does not order against the string
"a". So none of the three relations holds for this pair. -/
theorem c1_trichotomy_fails :
    veq (parse "1.0") (parse "1.0a1") = false ∧
    vlt (parse "1.0") (parse "1.0a1") = Option.none ∧
    vgt (parse "1.0") (parse "1.0a1") = Option.none :=
  ⟨rfl, rfl, rfl⟩

/-- Claim C2: the claim states that parse(str(parse(s))) equals parse(s) by
comparison key for every structured input. The code violates this already
at s = "1.0": __str__ emits the dead-guarded pre, post and dev parts of the
stored tuples, producing "1.0None0.post0.dev0", which no longer matches the
structured grammar, re-parses as a legacy value, and compares unequal to
the original. -/
theorem c2_roundtrip_fails :
    (parse "1.0").strOf = "1.0None0.post0.dev0" ∧
    (parse ((parse "1.0").strOf)).isLegacy = true ∧
    veq (parse ((parse "1.0").strOf)) (parse "1.0") = false :=
  ⟨rfl, rfl, rfl⟩

/-- Claim C3: the claim states the chain 1.0a1 < 1.0a2 < 1.0b1 < 1.0rc1 <
1.0, the final release sorting after its pre-releases. The comparisons
between two present pre-releases do hold, but the final link fails: the
comparison of parse("1.0rc1") against parse("1.0") raises TypeError
(Option.none), because the absent pre marker of "1.0" is stored as
(None, 0) rather than the positive-infinity sentinel. -/
theorem c3_prerelease_chain_fails :
    vlt (parse "1.0a1") (parse "1.0a2") = some true ∧
    vlt (parse "1.0a2") (parse "1.0b1") = some true ∧
    vlt (parse "1.0b1") (parse "1.0rc1") = some true ∧
    vlt (parse "1.0rc1") (parse "1.0") = Option.none :=
  ⟨rfl, rfl, rfl, rfl⟩

/-- Claim C4: the claim states the chain 1.0.dev1 < 1.0a1 < 1.0 < 1.0.post1.
All three comparisons in the chain raise TypeError (Option.none): each pair
differs in a pre or post field where one side stores (None, 0) for an
absent marker and the other a letter tag, and None does not order against
a string. -/
theorem c4_dev_post_chain_fails :
    vlt (parse "1.0.dev1") (parse "1.0a1") = Option.none ∧
    vlt (parse "1.0a1") (parse "1.0") = Option.none ∧
    vlt (parse "1.0") (parse "1.0.post1") = Option.none :=
  ⟨rfl, rfl, rfl⟩

/-- Claim C5: parse never fails: every string yields either a structured
Version or a LegacyVersion, and on the legacy path the key builder
produces a comparison key, a pair of the constant epoch -1 and a tuple of
string parts, for every input. -/
theorem c5_parse_never_fails (s : String) :
    (∃ v, parse s = .version v) ∨
    (∃ l, parse s = .legacy l ∧ ∃ parts, l.key = .vtup [.vint (-1), .vtup parts]) := by
  cases h : Version.make? s with
  | some v => exact Or.inl ⟨v, by simp [parse, h]⟩
  | none =>
    exact Or.inr ⟨LegacyVersion.make s, by simp [parse, h], ⟨_, rfl⟩⟩

/-- Claim C6: every LegacyVersion compares strictly less than every
structured Version: the legacy key starts with the constant epoch -1,
which is below the nonnegative epoch that starts every structured key, so
the lexicographic tuple comparison settles at the first element. -/
theorem c6_legacy_lt_structured (s t : String) (hs : (parse s).isLegacy = true)
    (ht : (parse t).isVersion = true) : vlt (parse s) (parse t) = some true := by
  cases h1 : Version.make? s with
  | some v =>
    have hv : (parse s).isLegacy = false := by simp [parse, h1, VersionValue.isLegacy]
    rw [hv] at hs; exact Bool.noConfusion hs
  | none =>
    cases h2 : Version.make? t with
    | none =>
      have hv : (parse t).isVersion = false := by simp [parse, h2, VersionValue.isVersion]
      rw [hv] at ht; exact Bool.noConfusion ht
    | some v =>
      obtain ⟨n, rest, hk⟩ := version_key_shape t v h2
      have hps : parse s = .legacy (LegacyVersion.make s) := by simp [parse, h1]
      have hpt : parse t = .version v := by simp [parse, h2]
      rw [hps, hpt]
      show pyLt (LegacyVersion.make s).key v.key = some true
      rw [hk]
      exact pyLt_legacy_structured ((legacyParts s).map PyVal.vstr) n rest

/-- Witness for C6 at the legacy string "foo" and the structured "1.0". -/
theorem c6_legacy_lt_structured_wit : vlt (parse "foo") (parse "1.0") = some true :=
  c6_legacy_lt_structured "foo" "1.0" rfl rfl

/-- Claim C7 counterexample: the claim states that when every release
element is zero the trimming keeps at least the leading element. It does
not: the release component of the key of parse("0") is the empty tuple,
not the one-element tuple holding the leading zero. -/
theorem c7_zero_release_not_kept :
    (parse "0").releaseComponent = some (.vtup []) ∧
    ((parse "0").releaseComponent == some (PyVal.vtup [PyVal.vint 0])) = false :=
  ⟨rfl, rfl⟩

/-- Claim C7 (amended): the comparison key strips trailing zero elements
from the release sequence, possibly leaving it empty when every element is
zero (the release component of parse("0") is the empty tuple);
consequently parse("1.0"), parse("1.0.0") and parse("1.0.0.0") are all
equal. -/
theorem c7_release_trimming :
    veq (parse "1.0") (parse "1.0.0") = true ∧
    veq (parse "1.0.0") (parse "1.0.0.0") = true ∧
    veq (parse "1.0") (parse "1.0.0.0") = true ∧
    (parse "0").releaseComponent = some (.vtup []) :=
  ⟨rfl, rfl, rfl, rfl⟩

/-- Claim C8: local segment ordering: 1.0 < 1.0+abc < 1.0+abc.1 < 1.0+abd
and 1.0+1 > 1.0+abc; in the key encoding an integer local segment, encoded
(i, ""), is greater than any string segment, encoded (-Infinity, s), at
the same position, and an absent local segment, encoded -Infinity, is less
than any present one, encoded as a tuple. -/
theorem c8_local_ordering :
    vlt (parse "1.0") (parse "1.0+abc") = some true ∧
    vlt (parse "1.0+abc") (parse "1.0+abc.1") = some true ∧
    vlt (parse "1.0+abc.1") (parse "1.0+abd") = some true ∧
    vgt (parse "1.0+1") (parse "1.0+abc") = some true ∧
    (∀ (n : Nat) (s : String),
      pyGt (.vtup [.vint (Int.ofNat n), .vstr ""]) (.vtup [.vninf, .vstr s]) = some true) ∧
    (∀ xs : List PyVal, pyLt .vninf (.vtup xs) = some true) :=
  ⟨rfl, rfl, rfl, rfl, fun _ _ => rfl, fun _ => rfl⟩

/-- Claim C9: the claim states public of "1.0+local.1" is "1.0". The local
and base_version accessors behave as claimed, but public returns
"1.0None0.post0.dev0": it is computed from str(self), whose dead
`is not None` guards emit the absent pre, post and dev markers. -/
theorem c9_public_accessor_fails :
    (parse "1.0+local.1").publicAcc = "1.0None0.post0.dev0" ∧
    (parse "1.0+local.1").localOf = some "local.1" ∧
    (parse "1.0").baseVersionAcc = "1.0" :=
  ⟨rfl, rfl, rfl⟩

/-- Claim C10: for every string accepted by the structured grammar both
is_prerelease and is_postrelease return True, because _parse_letter_version
stores the truthy tuple (None, 0) for an absent marker. -/
theorem c10_flags_always_true (s : String) (h : (parse s).isVersion = true) :
    (parse s).isPrereleaseAcc = true ∧ (parse s).isPostreleaseAcc = true := by
  cases hv : parse s with
  | legacy l => rw [hv] at h; exact Bool.noConfusion h
  | version v =>
    exact ⟨version_isPrerelease_true v, version_isPostrelease_true v⟩

/-- Witness for C10 at the marker-free structured string "1.0". -/
theorem c10_flags_always_true_wit :
    (parse "1.0").isPrereleaseAcc = true ∧ (parse "1.0").isPostreleaseAcc = true :=
  c10_flags_always_true "1.0" rfl
